import Mathlib

/-!
A shallow embedding of the GAN-EOT adversarial-training repository
(`advnet.py`, `data.py`, `config.py`): the checkpoint/resume bookkeeping of
the training controller, the history lists it appends to, the target-label
sampler and the label-correctness predicate, together with theorems
checking the specification's claims against these definitions.

Numeric scalars (losses, accuracies, learning rates) are modelled as
rationals; textures are modelled as flat lists of their values; the
external networks and the renderer are abstracted as parameters.
-/

/-- Errors raised by the embedded Python functions: the label-shape
`ValueError` of `data.is_prediction_true`, the `KeyError` raised when a
key `arr_i` is missing from a loaded `npz` archive, and the `IndexError`
raised by indexing an empty array. -/
inductive PyError where
  | valueError
  | keyError (index : Nat)
  | indexError
  deriving DecidableEq

/-- Ground-truth labels of a dataset object as produced by
`data.Model3D._load_labels` (src/data.py lines 100-138): either the string
sentinel `"dog"` (standing for the label range 151-275) or an explicit
list of integer class ids. -/
inductive ModelLabels where
  | dog
  | explicitLabels (labels : List Int)
  deriving DecidableEq

/-- An arbitrary Python value passed as `true_labels` to
`data.is_prediction_true`, which inspects its shape at run time: the
`"dog"` sentinel, a list of ints, or any other Python value
(`otherShape`). -/
inductive GroundTruthValue where
  | dogSentinel
  | intList (labels : List Int)
  | otherShape
  deriving DecidableEq

/-- The function `data.is_prediction_true` (src/data.py lines 286-314):
for `"dog"` it returns `True` exactly when `150 < predicted < 276`, for a
list it returns `True` exactly on membership, for any other shape it
raises a `ValueError`; in all non-returning branches control falls through
to the final `return False`. -/
def is_prediction_true : GroundTruthValue → Int → Except PyError Bool
  | .dogSentinel, p => if 150 < p ∧ p < 276 then .ok true else .ok false
  | .intList labels, p => if p ∈ labels then .ok true else .ok false
  | .otherShape, _ => .error .valueError

/-- The acceptance test inside the `while True` loop of
`BatchGenerator.get_random_target_label` (src/data.py lines 274-283): for
`"dog"` a draw is returned when `target_label < 151 or target_label > 275`;
for an explicit list when `target_label not in label_set`. -/
def acceptsTarget : ModelLabels → Int → Bool
  | .dog, t => t < 151 || t > 275
  | .explicitLabels labels, t => decide (t ∉ labels)

/-- The function `BatchGenerator.get_random_target_label` (src/data.py
lines 255-283), with the successive results of `random.randint(0, 999)`
supplied by the stream `draws` and the unbounded `while True` loop run for
at most `fuel` iterations; `none` models a loop that has not returned
within `fuel` draws (the source has no retry cap). -/
def getRandomTargetLabel (gt : ModelLabels) (draws : Nat → Int) : Nat → Option Int
  | 0 => none
  | fuel + 1 =>
    let t := draws 0
    if acceptsTarget gt t then some t
    else getRandomTargetLabel gt (fun n => draws (n + 1)) fuel

/-- The seven training-history lists kept as attributes of `AdvNet`
(src/advnet.py lines 54-63), in the order they are declared in
`__init__`'s field group for the simulator and generator. -/
structure TrainingHistory where
  simulator_loss_history : List ℚ
  simulator_accuracy_history : List ℚ
  generator_loss_history : List ℚ
  generator_l2_loss_history : List ℚ
  generator_tfr_history : List ℚ
  test_loss_history : List ℚ
  test_tfr_history : List ℚ
  deriving DecidableEq

/-- The history lists as zero-initialised in `AdvNet.__init__`
(src/advnet.py lines 54-63): every list empty. -/
def initialHistory : TrainingHistory :=
  { simulator_loss_history := []
    simulator_accuracy_history := []
    generator_loss_history := []
    generator_l2_loss_history := []
    generator_tfr_history := []
    test_loss_history := []
    test_tfr_history := [] }

/-- The `training_history.npz` archive: `np.savez` with eight positional
arguments stores them under the keys `arr_0` .. `arr_7`
(src/advnet.py line 536); a field is `none` when the archive lacks that
key. -/
structure NpzFile where
  arr_0 : Option (List ℚ)
  arr_1 : Option (List ℚ)
  arr_2 : Option (List ℚ)
  arr_3 : Option (List ℚ)
  arr_4 : Option (List ℚ)
  arr_5 : Option (List ℚ)
  arr_6 : Option (List ℚ)
  arr_7 : Option (List ℚ)
  deriving DecidableEq

/-- The archive written by `AdvNet.save` (src/advnet.py lines 525-538).
The positional order of the `np.savez` call is: simulator loss, simulator
accuracy, generator loss, generator TFR, generator L2 loss, test loss,
test TFR, `[step]` - so `arr_3` holds the TFR history and `arr_4` the L2
history. -/
def saveHistory (h : TrainingHistory) (step : Nat) : NpzFile :=
  { arr_0 := some h.simulator_loss_history
    arr_1 := some h.simulator_accuracy_history
    arr_2 := some h.generator_loss_history
    arr_3 := some h.generator_tfr_history
    arr_4 := some h.generator_l2_loss_history
    arr_5 := some h.test_loss_history
    arr_6 := some h.test_tfr_history
    arr_7 := some [(step : ℚ)] }

/-- The method `AdvNet.load_training_history` (src/advnet.py lines
556-584). When the path does not exist (`file = none`) the body of the
`if os.path.exists` guard is skipped and the function returns Python
`None` (`Except.ok none`) with the history untouched. When the archive is
present its keys are read one by one; a missing key raises `KeyError` at
its first access, after the fields read before it have already been
assigned. The key-to-field mapping is the source's: `arr_3` is assigned
to `generator_l2_loss_history` and `arr_4` to `generator_tfr_history`.
The returned step is `arr_7[0]`, an `IndexError` if that array is
empty. -/
def load_training_history (h : TrainingHistory) (file : Option NpzFile) :
    TrainingHistory × Except PyError (Option ℚ) :=
  match file with
  | none => (h, .ok none)
  | some d =>
    match d.arr_0 with
    | none => (h, .error (.keyError 0))
    | some a0 =>
      let h := { h with simulator_loss_history := a0 }
      match d.arr_1 with
      | none => (h, .error (.keyError 1))
      | some a1 =>
        let h := { h with simulator_accuracy_history := a1 }
        match d.arr_2 with
        | none => (h, .error (.keyError 2))
        | some a2 =>
          let h := { h with generator_loss_history := a2 }
          match d.arr_3 with
          | none => (h, .error (.keyError 3))
          | some a3 =>
            let h := { h with generator_l2_loss_history := a3 }
            match d.arr_4 with
            | none => (h, .error (.keyError 4))
            | some a4 =>
              let h := { h with generator_tfr_history := a4 }
              match d.arr_5 with
              | none => (h, .error (.keyError 5))
              | some a5 =>
                let h := { h with test_loss_history := a5 }
                match d.arr_6 with
                | none => (h, .error (.keyError 6))
                | some a6 =>
                  let h := { h with test_tfr_history := a6 }
                  match d.arr_7 with
                  | none => (h, .error (.keyError 7))
                  | some a7 =>
                    match a7.head? with
                    | none => (h, .error .indexError)
                    | some step => (h, .ok (some step))

/-- The sequence of `global_step` values executed by the main `while` loop
of `AdvNet.train` (src/advnet.py lines 147-185): the body runs once for
each value from the starting step while `global_step <= TotalSteps`,
incrementing at the end of the body. On a cold start the loop begins at 1
(line 143); on a resume it begins at the value returned by
`self.load_model()` (line 140), which is the step stored in the archive. -/
def executedSteps (startStep totalSteps : Nat) : List Nat :=
  List.range' startStep (totalSteps + 1 - startStep)

/-- A Keras learning-rate argument as used in `AdvNet.__init__`: either a
plain constant rate, or a `tf.keras.optimizers.schedules.ExponentialDecay`
schedule whose rate at a step is
`initial_learning_rate * decay_rate ^ (step / decay_steps)`. -/
inductive LearningRateSchedule where
  | constantRate (rate : ℚ)
  | exponentialDecay (initialLearningRate : ℚ) (decaySteps : Nat) (decayRate : ℚ)
  deriving DecidableEq

/-- A `tf.keras.optimizers.Adam` as constructed in `AdvNet.__init__`,
recording its learning-rate argument and epsilon. -/
structure AdamOptimiser where
  learningRate : LearningRateSchedule
  epsilon : ℚ
  deriving DecidableEq

/-- The hyper-parameter record (src/config.py), restricted to the fields
read by the embedded fragment. -/
structure HyperParams where
  SimulatorLearningRate : ℚ
  GeneratorLearningRate : ℚ
  DecayRate : ℚ
  DecayAfter : Nat
  SimulatorSteps : Nat
  GeneratorSteps : Nat
  ValidateAfter : Nat
  TotalSteps : Nat
  deriving DecidableEq

/-- The dictionary `config.hyper_params` (src/config.py lines 2-45),
restricted to the embedded fields: learning rates 0.001 and 0.004, decay
rate 0.98, decay interval 300. -/
def config_hyper_params : HyperParams :=
  { SimulatorLearningRate := 1/1000
    GeneratorLearningRate := 1/250
    DecayRate := 49/50
    DecayAfter := 300
    SimulatorSteps := 1
    GeneratorSteps := 1
    ValidateAfter := 500
    TotalSteps := 40000 }

/-- The simulator optimiser of `AdvNet.__init__` (src/advnet.py lines
46-52): `Adam` over an `ExponentialDecay` schedule built from
`SimulatorLearningRate`, `DecayAfter` and `DecayRate`, with
`epsilon=1e-8`. -/
def simulator_optimiser (hp : HyperParams) : AdamOptimiser :=
  { learningRate := .exponentialDecay hp.SimulatorLearningRate hp.DecayAfter hp.DecayRate
    epsilon := 1/100000000 }

/-- The generator optimiser of `AdvNet.__init__` (src/advnet.py line 51):
`Adam(GeneratorLearningRate, epsilon=1e-8)` - the learning-rate argument
is the plain constant `GeneratorLearningRate`. -/
def generator_optimiser (hp : HyperParams) : AdamOptimiser :=
  { learningRate := .constantRate hp.GeneratorLearningRate
    epsilon := 1/100000000 }

/-- History bookkeeping of `AdvNet.simulator_loss` (src/advnet.py lines
420-423): the step's loss and accuracy values are appended to the two
simulator history lists. `lossVal` and `accVal` stand for the numeric
values computed by the networks. -/
def simulatorLossBookkeeping (lossVal accVal : ℚ) (h : TrainingHistory) : TrainingHistory :=
  { h with simulator_loss_history := h.simulator_loss_history ++ [lossVal]
           simulator_accuracy_history := h.simulator_accuracy_history ++ [accVal] }

/-- The two `.pop()` calls of the simulator phase (src/advnet.py lines
159-160), removing the last entry of each simulator history list. -/
def popSimulatorEntries (h : TrainingHistory) : TrainingHistory :=
  { h with simulator_loss_history := h.simulator_loss_history.dropLast
           simulator_accuracy_history := h.simulator_accuracy_history.dropLast }

/-- One simulator sub-step of the training cycle (src/advnet.py lines
149-165): a training step on clean images (appending its loss/accuracy),
the two pops discarding those entries, then a training step on adversarial
images (appending its loss/accuracy). -/
def simulatorSubstep (clean adv : ℚ × ℚ) (h : TrainingHistory) : TrainingHistory :=
  simulatorLossBookkeeping adv.1 adv.2
    (popSimulatorEntries (simulatorLossBookkeeping clean.1 clean.2 h))

/-- History bookkeeping of `AdvNet.generator_loss` (src/advnet.py lines
387-388): the main loss and the L2 penalty are appended. -/
def generatorLossBookkeeping (mainVal l2Val : ℚ) (h : TrainingHistory) : TrainingHistory :=
  { h with generator_loss_history := h.generator_loss_history ++ [mainVal]
           generator_l2_loss_history := h.generator_l2_loss_history ++ [l2Val] }

/-- One generator sub-step (src/advnet.py lines 168-176): a generator
training step, whose loss call records the two loss entries, followed by
the TFR append in `train` (line 176). -/
def generatorSubstep (mainVal l2Val tfrVal : ℚ) (h : TrainingHistory) : TrainingHistory :=
  let h1 := generatorLossBookkeeping mainVal l2Val h
  { h1 with generator_tfr_history := h1.generator_tfr_history ++ [tfrVal] }

/-- History bookkeeping of `AdvNet.evaluate` (src/advnet.py lines
521-522): one mean test loss and one mean test TFR are appended. -/
def evaluateBookkeeping (lossVal tfrVal : ℚ) (h : TrainingHistory) : TrainingHistory :=
  { h with test_loss_history := h.test_loss_history ++ [lossVal]
           test_tfr_history := h.test_tfr_history ++ [tfrVal] }

/-- The numeric results produced during one iteration of the main training
loop: one (clean, adversarial) pair of (loss, accuracy) values per
simulator sub-step, one (main loss, L2 loss, TFR) triple per generator
sub-step, and `some (test loss, test TFR)` when
`global_step % ValidateAfter == 0` triggers the evaluation. -/
structure CycleData where
  simVals : List ((ℚ × ℚ) × (ℚ × ℚ))
  genVals : List (ℚ × ℚ × ℚ)
  validationVals : Option (ℚ × ℚ)

/-- One iteration of the main `while` loop of `AdvNet.train`
(src/advnet.py lines 147-185): the simulator sub-steps, then the generator
sub-steps, then the optional evaluation. -/
def trainingCycle (c : CycleData) (h : TrainingHistory) : TrainingHistory :=
  let h1 := c.simVals.foldl (fun acc v => simulatorSubstep v.1 v.2 acc) h
  let h2 := c.genVals.foldl (fun acc v => generatorSubstep v.1 v.2.1 v.2.2 acc) h1
  match c.validationVals with
  | none => h2
  | some v => evaluateBookkeeping v.1 v.2 h2

/-- A run of consecutive completed training cycles. -/
def runCycles (cs : List CycleData) (h : TrainingHistory) : TrainingHistory :=
  cs.foldl (fun acc c => trainingCycle c acc) h

/-- The history-alignment invariant of the specification: the simulator
loss and accuracy histories have equal length, and the generator's three
per-step histories have equal length. -/
def historiesAligned (h : TrainingHistory) : Prop :=
  h.simulator_loss_history.length = h.simulator_accuracy_history.length ∧
  h.generator_loss_history.length = h.generator_l2_loss_history.length ∧
  h.generator_l2_loss_history.length = h.generator_tfr_history.length

/-- Elementwise `tf.clip_by_value(x, lo, hi)`. -/
def clipByValue (x lo hi : ℚ) : ℚ := min (max x lo) hi

/-- The method `AdvNet.generate_adversarial_texture` (src/advnet.py lines
253-278) on flattened textures: the generator network (external,
abstracted as `generatorNet`) is fed the texture renormalised to
`[-1, 1]` together with the target labels; its noise output is added
elementwise to the clean texture and the sum is clipped into `[0, 1]`. -/
def generate_adversarial_texture (generatorNet : List ℚ → List Int → List ℚ)
    (std_textures : List ℚ) (target_labels : List Int) : List ℚ :=
  let adversarial_noises := generatorNet (std_textures.map (fun t => 2 * t - 1)) target_labels
  List.zipWith (fun noise t => clipByValue (noise + t) 0 1) adversarial_noises std_textures

/-- The concrete history used to exhibit the save/load field mismatch: a
TFR history `[1]` distinct from the L2 history `[2]`. -/
def c2FailingHistory : TrainingHistory :=
  { initialHistory with generator_tfr_history := [1], generator_l2_loss_history := [2] }

/-- An archive holding the seven history arrays but no step array
`arr_7`, as an incompatible-schema input for `load_training_history`. -/
def c3ArchiveMissingStep : NpzFile :=
  { arr_0 := some [9], arr_1 := some [9], arr_2 := some [9], arr_3 := some [9]
    arr_4 := some [9], arr_5 := some [9], arr_6 := some [9], arr_7 := none }

/-- Any value returned by the rejection-sampling loop passed its
acceptance test. -/
theorem getRandomTargetLabel_accepts (gt : ModelLabels) :
    ∀ (fuel : Nat) (draws : Nat → Int) (t : Int),
      getRandomTargetLabel gt draws fuel = some t → acceptsTarget gt t = true := by
  intro fuel
  induction fuel with
  | zero =>
    intro draws t h
    simp [getRandomTargetLabel] at h
  | succ n ih =>
    intro draws t h
    by_cases hacc : acceptsTarget gt (draws 0) = true
    · simp [getRandomTargetLabel, hacc] at h
      subst h
      exact hacc
    · simp [getRandomTargetLabel, hacc] at h
      exact ih _ t h

/-- If the draw at position `n` is acceptable, the loop returns within
`n + 1` iterations. -/
theorem getRandomTargetLabel_terminates (gt : ModelLabels) :
    ∀ (n : Nat) (draws : Nat → Int), acceptsTarget gt (draws n) = true →
      ∃ t, getRandomTargetLabel gt draws (n + 1) = some t := by
  intro n
  induction n with
  | zero =>
    intro draws h
    exact ⟨draws 0, by simp [getRandomTargetLabel, h]⟩
  | succ m ih =>
    intro draws h
    by_cases h0 : acceptsTarget gt (draws 0) = true
    · exact ⟨draws 0, by simp [getRandomTargetLabel, h0]⟩
    · obtain ⟨t, ht⟩ := ih (fun k => draws (k + 1)) h
      refine ⟨t, ?_⟩
      rw [getRandomTargetLabel]
      simpa [h0] using ht

/-- If no draw in the label space is acceptable and all draws lie in the
label space, the loop never returns, whatever the fuel. -/
theorem getRandomTargetLabel_none_of_covered (gt : ModelLabels)
    (hcov : ∀ v : Int, 0 ≤ v → v ≤ 999 → acceptsTarget gt v = false) :
    ∀ (fuel : Nat) (draws : Nat → Int), (∀ n, 0 ≤ draws n ∧ draws n ≤ 999) →
      getRandomTargetLabel gt draws fuel = none := by
  intro fuel
  induction fuel with
  | zero => intro draws _; rfl
  | succ m ih =>
    intro draws hrange
    have h0 : acceptsTarget gt (draws 0) = false := hcov _ (hrange 0).1 (hrange 0).2
    simp [getRandomTargetLabel, h0]
    exact ih (fun k => draws (k + 1)) fun n => hrange (n + 1)

/-- C5: every value returned by `get_random_target_label` satisfies the
exclusion invariant: for the `"dog"` sentinel it lies outside `[151, 275]`,
and for an explicit ground-truth list it is not a member of the list. -/
theorem c5_random_target_excluded (draws : Nat → Int) (fuel : Nat) (t : Int) :
    (getRandomTargetLabel .dog draws fuel = some t → ¬ (151 ≤ t ∧ t ≤ 275)) ∧
    (∀ labels : List Int,
      getRandomTargetLabel (.explicitLabels labels) draws fuel = some t → t ∉ labels) := by
  constructor
  · intro h
    have hacc := getRandomTargetLabel_accepts _ fuel draws t h
    simp [acceptsTarget] at hacc
    omega
  · intro labels h
    have hacc := getRandomTargetLabel_accepts _ fuel draws t h
    simpa [acceptsTarget] using hacc

/-- Witness for C5: a run of the sampler that returns 100 for the dog
sentinel and for the list `[5, 7]`; the returned label is outside
`[151, 275]` and not in the list. -/
theorem c5_random_target_excluded_witness :
    ¬ ((151 : Int) ≤ 100 ∧ (100 : Int) ≤ 275) ∧ (100 : Int) ∉ ([5, 7] : List Int) :=
  ⟨(c5_random_target_excluded (fun _ => 100) 1 100).1 (by decide),
   (c5_random_target_excluded (fun _ => 100) 1 100).2 [5, 7] (by decide)⟩

/-- C6: `is_prediction_true` on the `"dog"` sentinel returns `True`
exactly on `[151, 275]`, on an explicit list exactly on its members, and
on any other ground-truth shape raises the invalid-label-shape error
instead of returning. -/
theorem c6_is_prediction_true_spec (p : Int) (labels : List Int) :
    (is_prediction_true .dogSentinel p = .ok true ↔ 151 ≤ p ∧ p ≤ 275) ∧
    (is_prediction_true (.intList labels) p = .ok true ↔ p ∈ labels) ∧
    is_prediction_true .otherShape p = .error .valueError := by
  refine ⟨?_, ?_, rfl⟩
  · constructor
    · intro h
      by_cases hc : 150 < p ∧ p < 276
      · omega
      · simp [is_prediction_true, hc] at h
    · intro h
      have hc : 150 < p ∧ p < 276 := by omega
      simp [is_prediction_true, hc]
  · constructor
    · intro h
      by_cases hc : p ∈ labels
      · exact hc
      · simp [is_prediction_true, hc] at h
    · intro h
      simp [is_prediction_true, h]

/-- C10: an empty explicit ground-truth list is accepted by the shape
check and classifies every prediction as incorrect: the result is
`False`, not an error. -/
theorem c10_empty_list_never_correct (p : Int) :
    is_prediction_true (.intList []) p = .ok false := by
  simp [is_prediction_true]

/-- C9: the rejection-sampling loop of `get_random_target_label`
terminates for every fair draw stream whenever some label of the space
`[0, 999]` passes the exclusion test - in particular the dog sentinel
always leaves such a label - and, there being no retry cap, it returns
`none` at every fuel bound when the excluded set covers the entire label
space and the draws stay in the space. -/
theorem c9_rejection_sampling_termination (gt : ModelLabels) (draws : Nat → Int) :
    ((∃ v : Int, 0 ≤ v ∧ v ≤ 999 ∧ acceptsTarget gt v = true) →
      (∀ v : Int, 0 ≤ v → v ≤ 999 → ∃ n, draws n = v) →
      ∃ fuel t, getRandomTargetLabel gt draws fuel = some t) ∧
    (gt = .dog → ∃ v : Int, 0 ≤ v ∧ v ≤ 999 ∧ acceptsTarget gt v = true) ∧
    ((∀ v : Int, 0 ≤ v → v ≤ 999 → acceptsTarget gt v = false) →
      (∀ n, 0 ≤ draws n ∧ draws n ≤ 999) →
      ∀ fuel, getRandomTargetLabel gt draws fuel = none) := by
  refine ⟨?_, ?_, ?_⟩
  · rintro ⟨v, hv0, hv9, hacc⟩ hfair
    obtain ⟨n, hn⟩ := hfair v hv0 hv9
    obtain ⟨t, ht⟩ := getRandomTargetLabel_terminates gt n draws (by rw [hn]; exact hacc)
    exact ⟨n + 1, t, ht⟩
  · rintro rfl
    exact ⟨0, by decide, by decide, by decide⟩
  · intro hcov hrange fuel
    exact getRandomTargetLabel_none_of_covered gt hcov fuel draws hrange

set_option maxRecDepth 4000 in
/-- Witness for C9: with the fair draw stream `n % 1000` the sampler for
the singleton list `[5]` terminates, and with all of `[0, 999]` excluded
it returns `none` (shown at fuel 5). -/
theorem c9_rejection_sampling_termination_witness :
    (∃ fuel t,
      getRandomTargetLabel (.explicitLabels [5]) (fun n => (n : Int) % 1000) fuel = some t) ∧
    getRandomTargetLabel (.explicitLabels ((List.range 1000).map (fun n : Nat => (n : Int))))
      (fun _ => 0) 5 = none := by
  constructor
  · refine (c9_rejection_sampling_termination (.explicitLabels [5])
      (fun n => (n : Int) % 1000)).1 ⟨0, by decide, by decide, by decide⟩ ?_
    intro v hv0 hv9
    refine ⟨v.toNat, ?_⟩
    have h1 : ((v.toNat : Int)) = v := Int.toNat_of_nonneg hv0
    rw [h1]
    exact Int.emod_eq_of_lt hv0 (by omega)
  · refine (c9_rejection_sampling_termination _ (fun _ => (0 : Int))).2.2 ?_
      (fun n => by constructor <;> decide) 5
    intro v hv0 hv9
    have hm : v.toNat ∈ List.range 1000 := List.mem_range.mpr (by omega)
    have hv2 : ((v.toNat : Int)) ∈ (List.range 1000).map (fun n : Nat => (n : Int)) :=
      List.mem_map_of_mem (fun n : Nat => (n : Int)) hm
    rw [Int.toNat_of_nonneg hv0] at hv2
    exact decide_eq_false (not_not_intro hv2)

/-- C2: the save/load round trip does not restore every history sequence:
`np.savez` writes the TFR history as `arr_3` and the L2 history as
`arr_4`, while `load_training_history` assigns `arr_3` to the L2 history
and `arr_4` to the TFR history, so the two sequences come back swapped. -/
theorem c2_history_roundtrip_swapped :
    (load_training_history initialHistory
        (some (saveHistory c2FailingHistory 3))).1.generator_l2_loss_history = [1] ∧
    (load_training_history initialHistory
        (some (saveHistory c2FailingHistory 3))).1.generator_tfr_history = [2] ∧
    c2FailingHistory.generator_tfr_history = [1] ∧
    c2FailingHistory.generator_l2_loss_history = [2] ∧
    (load_training_history initialHistory
        (some (saveHistory c2FailingHistory 3))).2 = .ok (some 3) :=
  ⟨rfl, rfl, rfl, rfl, rfl⟩

/-- C3 counterexample: a missing archive is not a fatal explicit error -
`load_training_history` returns Python `None` with the history untouched -
and an archive missing `arr_7` errors only after the seven history lists
were already overwritten. -/
theorem c3_resume_error_counterexample :
    load_training_history initialHistory none = (initialHistory, .ok none) ∧
    (load_training_history initialHistory (some c3ArchiveMissingStep)).2
      = .error (.keyError 7) ∧
    (load_training_history initialHistory
        (some c3ArchiveMissingStep)).1.simulator_loss_history = [9] ∧
    initialHistory.simulator_loss_history = [] :=
  ⟨rfl, rfl, rfl, rfl⟩

/-- C3 amended: on a resume entry a missing history archive is silently
skipped - the history is unchanged and no step and no error is returned -
while an archive missing its step array raises a key error only at that
array's access, after all seven history sequences have already been
assigned from the archive. -/
theorem c3_resume_error_amended (h : TrainingHistory) (a0 a1 a2 a3 a4 a5 a6 : List ℚ)
    (d : NpzFile)
    (hd : d = { arr_0 := some a0, arr_1 := some a1, arr_2 := some a2, arr_3 := some a3,
                arr_4 := some a4, arr_5 := some a5, arr_6 := some a6, arr_7 := none }) :
    load_training_history h none = (h, .ok none) ∧
    load_training_history h (some d) =
      ({ simulator_loss_history := a0
         simulator_accuracy_history := a1
         generator_loss_history := a2
         generator_l2_loss_history := a3
         generator_tfr_history := a4
         test_loss_history := a5
         test_tfr_history := a6 }, .error (.keyError 7)) := by
  subst hd
  exact ⟨rfl, rfl⟩

/-- Witness for C3 at a concrete history and archive. -/
theorem c3_resume_error_amended_witness :
    load_training_history initialHistory none = (initialHistory, .ok none) ∧
    load_training_history initialHistory
        (some { arr_0 := some [1], arr_1 := some [2], arr_2 := some [3], arr_3 := some [4],
                arr_4 := some [5], arr_5 := some [6], arr_6 := some [7], arr_7 := none }) =
      ({ simulator_loss_history := [1]
         simulator_accuracy_history := [2]
         generator_loss_history := [3]
         generator_l2_loss_history := [4]
         generator_tfr_history := [5]
         test_loss_history := [6]
         test_tfr_history := [7] }, .error (.keyError 7)) :=
  c3_resume_error_amended initialHistory [1] [2] [3] [4] [5] [6] [7] _ rfl

/-- Peeling the first executed step off the training loop when the start
step is within the budget. -/
theorem executedSteps_cons (N total : Nat) (h : N ≤ total) :
    executedSteps N total = N :: executedSteps (N + 1) total := by
  unfold executedSteps
  have e1 : total + 1 - N = (total - N) + 1 := by omega
  have e2 : total + 1 - (N + 1) = total - N := by omega
  rw [e1, e2, List.range'_succ]

/-- C1 counterexample: checkpoint at GlobalStep 2 with a 4-step budget:
the loaded step is 2 and the resumed loop re-executes step 2, so the first
step executed after resume is 2 rather than 3, and the combined step
sequence differs from that of a run that never stopped. -/
theorem c1_resume_counterexample :
    (load_training_history initialHistory (some (saveHistory initialHistory 2))).2
      = .ok (some 2) ∧
    (executedSteps 2 4).head? = some 2 ∧
    (executedSteps 2 4).head? ≠ some 3 ∧
    executedSteps 1 2 ++ executedSteps 2 4 ≠ executedSteps 1 4 :=
  ⟨rfl, rfl, by decide, by decide⟩

/-- C1 amended: the archive written at GlobalStep N stores N itself and
loading returns it, so the resumed loop starts at N: its first executed
step is N, and the concatenation of the steps run before the stop with the
steps run after the resume equals the uninterrupted sequence with step N
executed twice - one repeat, no gap. -/
theorem c1_resume_amended (h : TrainingHistory) (N total : Nat)
    (h1 : 1 ≤ N) (h2 : N ≤ total) :
    (load_training_history initialHistory (some (saveHistory h N))).2
      = .ok (some (N : ℚ)) ∧
    (executedSteps N total).head? = some N ∧
    executedSteps 1 N ++ executedSteps N total
      = executedSteps 1 N ++ N :: executedSteps (N + 1) total ∧
    executedSteps 1 total = executedSteps 1 N ++ executedSteps (N + 1) total := by
  refine ⟨rfl, ?_, ?_, ?_⟩
  · rw [executedSteps_cons N total h2]
    rfl
  · rw [executedSteps_cons N total h2]
  · unfold executedSteps
    have e1 : total + 1 - 1 = total := by omega
    have e2 : N + 1 - 1 = N := by omega
    have e3 : total + 1 - (N + 1) = total - N := by omega
    rw [e1, e2, e3]
    have happ := List.range'_append_1 1 N (total - N)
    rw [show 1 + N = N + 1 by omega] at happ
    rw [show total - N + N = total by omega] at happ
    exact happ.symm

/-- Witness for C1 at N = 2, total budget 4. -/
theorem c1_resume_amended_witness :
    (load_training_history initialHistory (some (saveHistory initialHistory 2))).2
      = .ok (some (2 : ℚ)) ∧
    (executedSteps 2 4).head? = some 2 ∧
    executedSteps 1 2 ++ executedSteps 2 4 = executedSteps 1 2 ++ 2 :: executedSteps 3 4 ∧
    executedSteps 1 4 = executedSteps 1 2 ++ executedSteps 3 4 :=
  c1_resume_amended initialHistory 2 4 (by decide) (by decide)

/-- C4 counterexample: with the shipped config values the generator
optimiser's learning-rate argument is the constant 1/250 (0.004), not an
exponential-decay schedule built from its configured initial rate. -/
theorem c4_generator_schedule_counterexample :
    (generator_optimiser config_hyper_params).learningRate
        ≠ LearningRateSchedule.exponentialDecay config_hyper_params.GeneratorLearningRate
            config_hyper_params.DecayAfter config_hyper_params.DecayRate ∧
    (generator_optimiser config_hyper_params).learningRate
        = LearningRateSchedule.constantRate (1/250) :=
  ⟨by decide, rfl⟩

/-- C4 amended: at cold start only the Simulator optimizer is constructed
with the exponential learning-rate decay schedule (initial rate
`SimulatorLearningRate`, interval `DecayAfter`, decay rate `DecayRate`);
the Generator optimizer is constructed with the constant rate
`GeneratorLearningRate` and no decay schedule. -/
theorem c4_optimiser_schedules_amended (hp : HyperParams) :
    (simulator_optimiser hp).learningRate
      = .exponentialDecay hp.SimulatorLearningRate hp.DecayAfter hp.DecayRate ∧
    (generator_optimiser hp).learningRate = .constantRate hp.GeneratorLearningRate :=
  ⟨rfl, rfl⟩

/-- A simulator sub-step keeps exactly the adversarial-image entries: the
clean-image entries are appended and then popped again. -/
theorem simulatorSubstep_keeps_adversarial (clean adv : ℚ × ℚ) (h : TrainingHistory) :
    (simulatorSubstep clean adv h).simulator_loss_history
      = h.simulator_loss_history ++ [adv.1] ∧
    (simulatorSubstep clean adv h).simulator_accuracy_history
      = h.simulator_accuracy_history ++ [adv.2] := by
  constructor <;>
    simp [simulatorSubstep, simulatorLossBookkeeping, popSimulatorEntries,
      List.dropLast_concat]

/-- Simulator sub-steps preserve the history-alignment invariant. -/
theorem simulatorSubstep_aligned (clean adv : ℚ × ℚ) (h : TrainingHistory)
    (hh : historiesAligned h) : historiesAligned (simulatorSubstep clean adv h) := by
  obtain ⟨hs, hg1, hg2⟩ := hh
  obtain ⟨e1, e2⟩ := simulatorSubstep_keeps_adversarial clean adv h
  refine ⟨?_, ?_, ?_⟩
  · rw [e1, e2]
    simp [hs]
  · simpa [simulatorSubstep, simulatorLossBookkeeping, popSimulatorEntries] using hg1
  · simpa [simulatorSubstep, simulatorLossBookkeeping, popSimulatorEntries] using hg2

/-- Generator sub-steps preserve the history-alignment invariant. -/
theorem generatorSubstep_aligned (m l2 tfr : ℚ) (h : TrainingHistory)
    (hh : historiesAligned h) : historiesAligned (generatorSubstep m l2 tfr h) := by
  obtain ⟨hs, hg1, hg2⟩ := hh
  refine ⟨?_, ?_, ?_⟩ <;>
    simp [generatorSubstep, generatorLossBookkeeping] <;> omega

/-- Evaluation appends only to the test histories and so preserves the
alignment invariant. -/
theorem evaluateBookkeeping_aligned (l t : ℚ) (h : TrainingHistory)
    (hh : historiesAligned h) : historiesAligned (evaluateBookkeeping l t h) := by
  simpa [evaluateBookkeeping, historiesAligned] using hh

/-- The simulator phase preserves the alignment invariant. -/
theorem foldlSimAligned (vs : List ((ℚ × ℚ) × (ℚ × ℚ))) :
    ∀ h : TrainingHistory, historiesAligned h →
      historiesAligned (vs.foldl (fun acc v => simulatorSubstep v.1 v.2 acc) h) := by
  induction vs with
  | nil => intro h hh; exact hh
  | cons v vs ih => intro h hh; exact ih _ (simulatorSubstep_aligned v.1 v.2 h hh)

/-- The generator phase preserves the alignment invariant. -/
theorem foldlGenAligned (vs : List (ℚ × ℚ × ℚ)) :
    ∀ h : TrainingHistory, historiesAligned h →
      historiesAligned (vs.foldl (fun acc v => generatorSubstep v.1 v.2.1 v.2.2 acc) h) := by
  induction vs with
  | nil => intro h hh; exact hh
  | cons v vs ih => intro h hh; exact ih _ (generatorSubstep_aligned v.1 v.2.1 v.2.2 h hh)

/-- One full training cycle preserves the alignment invariant. -/
theorem trainingCycle_aligned (c : CycleData) (h : TrainingHistory)
    (hh : historiesAligned h) : historiesAligned (trainingCycle c h) := by
  unfold trainingCycle
  have h1 := foldlSimAligned c.simVals h hh
  have h2 := foldlGenAligned c.genVals _ h1
  cases hv : c.validationVals with
  | none => simpa [hv] using h2
  | some v =>
    simp only [hv]
    exact evaluateBookkeeping_aligned v.1 v.2 _ h2

/-- Any number of training cycles preserves the alignment invariant. -/
theorem runCycles_aligned (cs : List CycleData) :
    ∀ h : TrainingHistory, historiesAligned h → historiesAligned (runCycles cs h) := by
  induction cs with
  | nil => intro h hh; exact hh
  | cons c cs ih => intro h hh; exact ih _ (trainingCycle_aligned c h hh)

/-- C7: starting from aligned histories, any number of completed training
cycles keeps the simulator loss and accuracy histories at equal length and
the generator's three per-step histories at equal length; moreover each
simulator sub-step retains only the adversarial-image entry, the
clean-image entry being appended and then discarded. -/
theorem c7_history_alignment (cs : List CycleData) (h : TrainingHistory)
    (hh : historiesAligned h) :
    historiesAligned (runCycles cs h) ∧
    ∀ clean adv : ℚ × ℚ,
      (simulatorSubstep clean adv h).simulator_loss_history
        = h.simulator_loss_history ++ [adv.1] ∧
      (simulatorSubstep clean adv h).simulator_accuracy_history
        = h.simulator_accuracy_history ++ [adv.2] :=
  ⟨runCycles_aligned cs h hh, fun clean adv => simulatorSubstep_keeps_adversarial clean adv h⟩

/-- Witness for C7 at one concrete cycle from the initial (aligned)
history. -/
theorem c7_history_alignment_witness :
    historiesAligned
      (runCycles [⟨[((1, 2), (3, 4))], [(5, 6, 7)], some (8, 9)⟩] initialHistory) ∧
    ((simulatorSubstep (1, 2) (3, 4) initialHistory).simulator_loss_history = [3] ∧
     (simulatorSubstep (1, 2) (3, 4) initialHistory).simulator_accuracy_history = [4]) :=
  ⟨(c7_history_alignment [⟨[((1, 2), (3, 4))], [(5, 6, 7)], some (8, 9)⟩] initialHistory
      ⟨rfl, rfl, rfl⟩).1,
   (c7_history_alignment [⟨[((1, 2), (3, 4))], [(5, 6, 7)], some (8, 9)⟩] initialHistory
      ⟨rfl, rfl, rfl⟩).2 (1, 2) (3, 4)⟩

/-- Every clip into [0, 1] lies in [0, 1]. -/
theorem clipByValue_unit_bounds (x : ℚ) : 0 ≤ clipByValue x 0 1 ∧ clipByValue x 0 1 ≤ 1 :=
  ⟨le_min (le_max_right x 0) zero_le_one, min_le_right _ _⟩

/-- Every element of the clipped elementwise sum lies in [0, 1]. -/
theorem mem_zipWith_clip_bounds (ns : List ℚ) :
    ∀ ts : List ℚ, ∀ v ∈ List.zipWith (fun noise t => clipByValue (noise + t) 0 1) ns ts,
      0 ≤ v ∧ v ≤ 1 := by
  induction ns with
  | nil => intro ts v hv; simp at hv
  | cons n ns ih =>
    intro ts v hv
    cases ts with
    | nil => simp at hv
    | cons t ts =>
      simp only [List.zipWith_cons_cons, List.mem_cons] at hv
      rcases hv with rfl | hv
      · exact clipByValue_unit_bounds (n + t)
      · exact ih ts v hv

/-- C8: for a clean texture with values in [0, 1] and any generator noise
output, every adversarial texture value lies in [0, 1], and the texture is
the pointwise clamp of noise + texture into [0, 1] - out-of-range sums are
truncated, not rescaled. -/
theorem c8_adversarial_texture_clamped (generatorNet : List ℚ → List Int → List ℚ)
    (std_textures : List ℚ) (target_labels : List Int)
    (_htex : ∀ t ∈ std_textures, 0 ≤ t ∧ t ≤ 1) :
    (∀ v ∈ generate_adversarial_texture generatorNet std_textures target_labels,
      0 ≤ v ∧ v ≤ 1) ∧
    generate_adversarial_texture generatorNet std_textures target_labels
      = List.zipWith (fun noise t => min (max (noise + t) 0) 1)
          (generatorNet (std_textures.map fun t => 2 * t - 1) target_labels) std_textures := by
  refine ⟨?_, rfl⟩
  intro v hv
  exact mem_zipWith_clip_bounds _ std_textures v hv

/-- Witness for C8: texture [1/2, 1] with noise [2, -3]: the sums 5/2 and
-2 clamp to 1 and 0. -/
theorem c8_adversarial_texture_clamped_witness :
    ((0 : ℚ) ≤ 1 ∧ (1 : ℚ) ≤ 1) ∧
    generate_adversarial_texture (fun _ _ => [2, -3]) [1/2, 1] [7] = [1, 0] := by
  have heval : generate_adversarial_texture (fun _ _ => [2, -3]) [1/2, 1] [7] = [1, 0] := by
    norm_num [generate_adversarial_texture, clipByValue, max_def, min_def]
  refine ⟨?_, heval⟩
  refine (c8_adversarial_texture_clamped (fun _ _ => [2, -3]) [1/2, 1] [7] ?_).1 1 ?_
  · intro t ht
    simp only [List.mem_cons, List.not_mem_nil, or_false] at ht
    rcases ht with rfl | rfl <;> constructor <;> norm_num
  · rw [heval]
    simp
